import Mathlib

/-!
# Verification of the authentication core of the AI-powered-job backend

Shallow embedding of the authentication subsystem:
`src/backend/src/modules/auth/auth.service.ts`,
`src/backend/src/shared/middlewares/auth.ts`,
`src/backend/src/shared/middlewares/validate.ts`,
`src/backend/src/shared/middlewares/errorHandler.ts`,
and `src/backend/src/modules/auth/auth.types.ts`.

The persistence layer (Prisma) is modelled as a list of user records with
point lookups by unique email / id, exactly the contract the code uses.
`bcrypt` is modelled by a concrete injective hash so that `compare` succeeds
precisely on the plaintext that produced the digest.  `jsonwebtoken` is
modelled by a structured token that records the payload and the secret it
was signed with (standing for the signature), plus a `malformed` case for
arbitrary non-token strings.
-/

namespace JobTracker

/-- A JSON-ish value, enough to express the response payloads the
service builds (string fields, nullable string fields, numeric fields). -/
inductive JsonValue where
  | str (s : String)
  | nullv
  | num (n : Nat)
deriving DecidableEq

/-- A nullable string field as serialized by Prisma (`string | null`). -/
def jsonOfOptStr : Option String → JsonValue
  | none => JsonValue.nullv
  | some s => JsonValue.str s

/-- The stored `User` record (Prisma model): unique `id`, unique `email`,
password hash, optional names/phone, creation timestamp. -/
structure User where
  id : String
  email : String
  password : String
  firstName : Option String
  lastName : Option String
  phone : Option String
  createdAt : Nat
deriving DecidableEq

/-- A stored user's attribute by (Prisma select) field name. -/
def User.field (u : User) : String → Option JsonValue
  | "id" => some (JsonValue.str u.id)
  | "email" => some (JsonValue.str u.email)
  | "password" => some (JsonValue.str u.password)
  | "firstName" => some (jsonOfOptStr u.firstName)
  | "lastName" => some (jsonOfOptStr u.lastName)
  | "phone" => some (jsonOfOptStr u.phone)
  | "createdAt" => some (JsonValue.num u.createdAt)
  | _ => none

/-- Prisma `select`: the returned object holds exactly the requested
fields, in the order they are requested. -/
def selectUser (u : User) (fields : List String) : List (String × JsonValue) :=
  fields.filterMap (fun f => (u.field f).map (fun v => (f, v)))

/-- The user store (external persistence): a collection of user records.
`prisma.user.findUnique({where: {email}})`. -/
def findUserByEmail (store : List User) (email : String) : Option User :=
  store.find? (fun u => u.email == email)

/-- `prisma.user.findUnique({where: {id}})`. -/
def findUserById (store : List User) (id : String) : Option User :=
  store.find? (fun u => u.id == id)

/-! ## Credential hasher (bcrypt)

`bcrypt.hash(plaintext, 12)` produces a salted digest; `bcrypt.compare`
re-derives the digest and succeeds exactly when the plaintext matches.
We model the digest concretely and injectively. -/

/-- `bcrypt.hash(plain, rounds)`: modelled as an injective tagged string so
that comparison is decidable and succeeds only on the original plaintext. -/
def bcryptHash (plain : String) (rounds : Nat) : String :=
  "$2b$" ++ toString rounds ++ "$" ++ plain

/-- `bcrypt.compare(plain, digest)`: true exactly when `digest` is the hash
of `plain` (the code base only ever hashes with cost 12).  Never throws on
mismatch — returns false. -/
def bcryptCompare (plain digest : String) : Bool :=
  digest == bcryptHash plain 12

/-! ## Token codec (jsonwebtoken) -/

/-- The payload the service signs (`JwtPayload` in `auth.ts`). -/
structure JwtPayload where
  userId : String
  email : String
deriving DecidableEq

/-- A signed token: payload plus issued-at / expiry claims; the `secret`
field records which secret produced the signature (a signature verifies
exactly when the verifying secret equals the signing secret). -/
structure SignedToken where
  userId : String
  email : String
  iat : Nat
  exp : Nat
  secret : String
deriving DecidableEq

/-- A token string handed to `jwt.verify`: either a structurally well-formed
signed token or arbitrary garbage. -/
inductive TokenStr where
  | signed (t : SignedToken)
  | malformed (s : String)
deriving DecidableEq

/-- The failure kinds of `jwt.verify`: `JsonWebTokenError` (signature or
structure check failed) and `TokenExpiredError`.  In the jsonwebtoken
library `TokenExpiredError` is a subclass of `JsonWebTokenError`
(`TokenExpiredError.prototype = Object.create(JsonWebTokenError.prototype)`). -/
inductive JwtError where
  | invalid
  | expired
deriving DecidableEq

/-- The `.name` property of the corresponding jsonwebtoken error object. -/
def JwtError.errName : JwtError → String
  | JwtError.invalid => "JsonWebTokenError"
  | JwtError.expired => "TokenExpiredError"

/-- `jwt.sign({userId, email}, secret, {expiresIn})` at time `now`
(seconds): sets `iat = now` and `exp = now + expiresInSecs`. -/
def jwtSign (userId email : String) (secret : String) (expiresInSecs : Nat)
    (now : Nat) : TokenStr :=
  TokenStr.signed ⟨userId, email, now, now + expiresInSecs, secret⟩

/-- `jwt.verify(token, secret)` at clock time `now`: structure and signature
are checked first (failing with `JsonWebTokenError`), then the expiry claim
(jsonwebtoken reports expiry when `clockTimestamp >= exp`). -/
def jwtVerify (tok : TokenStr) (secret : String) (now : Nat) :
    Except JwtError JwtPayload :=
  match tok with
  | TokenStr.malformed _ => Except.error JwtError.invalid
  | TokenStr.signed t =>
    if t.secret == secret then
      if now < t.exp then Except.ok ⟨t.userId, t.email⟩
      else Except.error JwtError.expired
    else Except.error JwtError.invalid

/-- `config.jwt.expiresIn` defaults to `"7d"` (env.ts), i.e. 7 days. -/
def defaultExpiresInSecs : Nat := 7 * 24 * 60 * 60

/-! ## Domain errors (AppError)

Modelled from the spec: `src/shared/errors/AppError.ts` is referenced by
every module (`AppError`, `ConflictError`, `UnauthorizedError`,
`ValidationError`) but its source is not part of the provided tree; only
its callers and the architecture notes are.  Per the spec's taxonomy, a
domain error carries its own HTTP status and message: `Unauthorized` is
401, `Conflict` (duplicate registration detected by the pre-check) is 409,
and a structured-validation domain failure is 422. -/
structure AppError where
  statusCode : Nat
  message : String
deriving DecidableEq

/-- Modelled from the spec: `UnauthorizedError` (AppError with status 401). -/
def UnauthorizedError (msg : String) : AppError := ⟨401, msg⟩

/-- Modelled from the spec: `ConflictError` (AppError with status 409). -/
def ConflictError (msg : String) : AppError := ⟨409, msg⟩

/-- Modelled from the spec: `ValidationError` (AppError with status 422). -/
def ValidationError (msg : String) : AppError := ⟨422, msg⟩

/-! ## Zod validation errors -/

/-- One Zod issue: the path of the violated location and a message. -/
structure ZodIssue where
  path : List String
  message : String
deriving DecidableEq

/-- A `{field, message}` entry of the error handler's `errors` array. -/
structure FieldError where
  field : String
  message : String
deriving DecidableEq

/-! ## The error value reaching the centralized error handler

`errorHandler(err, ...)` dispatches on the dynamic class (`instanceof`)
and on `err.name`; we enumerate the classes that can reach it. -/

/-- An error value as classified by `errorHandler`: a domain `AppError`, a
`Prisma.PrismaClientKnownRequestError` (with its `code` and `meta.target`),
a `ZodError` (with its issue list), a raw jsonwebtoken error, or any other
`Error` object carrying a `name` and a `message`. -/
inductive Thrown where
  | app (e : AppError)
  | prisma (code : String) (target : String)
  | zod (issues : List ZodIssue)
  | jwt (e : JwtError)
  | other (name message : String)
deriving DecidableEq

/-- `err instanceof jwt.JsonWebTokenError`.  True for both kinds because
`TokenExpiredError` is a subclass of `JsonWebTokenError` in the
jsonwebtoken library. -/
def Thrown.isJsonWebTokenError : Thrown → Bool
  | Thrown.jwt JwtError.invalid => true
  | Thrown.jwt JwtError.expired => true
  | _ => false

/-- `err instanceof jwt.TokenExpiredError`: only the expired kind. -/
def Thrown.isTokenExpiredError : Thrown → Bool
  | Thrown.jwt JwtError.expired => true
  | _ => false

/-- The `.name` property used by `errorHandler`'s duck-typed JWT checks. -/
def Thrown.errName : Thrown → String
  | Thrown.app _ => "Error"
  | Thrown.prisma _ _ => "PrismaClientKnownRequestError"
  | Thrown.zod _ => "ZodError"
  | Thrown.jwt e => e.errName
  | Thrown.other n _ => n

/-- The `.message` property (only the shapes the handler reads matter:
`AppError.message` and the generic `err.message` in the unknown branch). -/
def Thrown.errMessage : Thrown → String
  | Thrown.app e => e.message
  | Thrown.prisma _ _ => "PrismaClientKnownRequestError"
  | Thrown.zod _ => "ZodError"
  | Thrown.jwt _ => "jwt error"
  | Thrown.other _ m => m

/-! ## Centralized error handler (errorHandler.ts) -/

/-- `handlePrismaError`: maps a Prisma error code to a category message. -/
def handlePrismaError (code : String) (target : String) : String :=
  if code == "P2002" then "Duplicate field value: " ++ target
  else if code == "P2014" then "Invalid ID"
  else if code == "P2003" then "Invalid input data"
  else if code == "P2025" then "Record not found"
  else "Database error occurred"

/-- The JSON body + status the error handler sends: `success` is always
false, `errors` is present only for validation failures, and `stack` is
attached only in development mode. -/
structure ErrResponse where
  statusCode : Nat
  message : String
  errors : Option (List FieldError)
  stackIncluded : Bool
deriving DecidableEq

/-- `errorHandler(err, req, res, next)` (errorHandler.ts): defaults to
status 500 / "Internal server error", then dispatches in order on
`instanceof AppError`, `instanceof Prisma.PrismaClientKnownRequestError`,
`instanceof ZodError`, `err.name === "JsonWebTokenError"`,
`err.name === "TokenExpiredError"`, and otherwise keeps 500 with
`err.message || "Internal server error"`. -/
def errorHandler (err : Thrown) (devMode : Bool) : ErrResponse :=
  match err with
  | Thrown.app e => ⟨e.statusCode, e.message, none, devMode⟩
  | Thrown.prisma code target => ⟨400, handlePrismaError code target, none, devMode⟩
  | Thrown.zod issues =>
    ⟨422, "Validation failed",
      some (issues.map (fun i => ⟨String.intercalate "." i.path, i.message⟩)),
      devMode⟩
  | e =>
    if e.errName == "JsonWebTokenError" then ⟨401, "Invalid token", none, devMode⟩
    else if e.errName == "TokenExpiredError" then ⟨401, "Token expired", none, devMode⟩
    else ⟨500, if e.errMessage == "" then "Internal server error" else e.errMessage,
          none, devMode⟩

/-! ## Validation gate: the Zod schemas of auth.types.ts

`RegisterSchema = z.object({ body: z.object({ email: z.string().email(...),
password: z.string().min(8,...).regex(/[A-Z]/,...).regex(/[a-z]/,...)
.regex(/[0-9]/,...), firstName: z.string().min(1,...).optional(),
lastName: z.string().optional() }) })`, applied by `validate` to the
combined `{body, query, params}` view (only `body` is constrained).
Zod collects issues per shape key in declaration order, and for a chained
string all failing checks in chain order. -/

/-- Splits a character list on a separator (used to model the
`local@domain` and dot-separated-label structure of Zod's email regex). -/
def splitOnChar (sep : Char) : List Char → List (List Char)
  | [] => [[]]
  | c :: rest =>
    match splitOnChar sep rest with
    | [] => if c == sep then [[], [c]] else [[c]]
    | g :: gs => if c == sep then [] :: g :: gs else (c :: g) :: gs

/-- Two consecutive dots somewhere in the list (the regex's negative
lookahead `(?!.*\.\.)`). -/
def hasDoubleDot : List Char → Bool
  | '.' :: '.' :: _ => true
  | _ :: rest => hasDoubleDot rest
  | [] => false

/-- Characters allowed in the email local part: `[A-Z0-9_'+\-\.]` with the
`i` flag (the 39 is the apostrophe). -/
def isEmailLocalChar (c : Char) : Bool :=
  c.isAlphanum || c == '_' || c == Char.ofNat 39 || c == '+' || c == '-' || c == '.'

/-- Characters allowed as the last local-part character: `[A-Z0-9_+-]`. -/
def isEmailLocalLastChar (c : Char) : Bool :=
  c.isAlphanum || c == '_' || c == '+' || c == '-'

/-- One domain label `[A-Z0-9][A-Z0-9\-]*`. -/
def isEmailDomainLabel : List Char → Bool
  | [] => false
  | c :: rest => c.isAlphanum && rest.all (fun d => d.isAlphanum || d == '-')

/-- `z.string().email()`: Zod's email format check, transcribed from its
regex `^(?!\.)(?!.*\.\.)([A-Z0-9_'+\-\.]*)[A-Z0-9_+-]@([A-Z0-9][A-Z0-9\-]*\.)+[A-Z]\x7b2,\x7d$`
with the case-insensitive flag. -/
def zodEmailFormat (s : String) : Bool :=
  let cs := s.data
  match splitOnChar '@' cs with
  | [localPart, domainPart] =>
    (match cs with | [] => false | c :: _ => !(c == '.')) &&
    !hasDoubleDot cs &&
    (match localPart.reverse with
     | [] => false
     | last :: initRev => isEmailLocalLastChar last && initRev.all isEmailLocalChar) &&
    (match (splitOnChar '.' domainPart).reverse with
     | [] => false
     | tld :: labsRev =>
       !labsRev.isEmpty && labsRev.all isEmailDomainLabel &&
       tld.length ≥ 2 && tld.all Char.isAlpha)
  | _ => false

/-- `/[A-Z]/` check of the password schema. -/
def hasUppercase (s : String) : Bool := s.data.any Char.isUpper

/-- `/[a-z]/` check of the password schema. -/
def hasLowercase (s : String) : Bool := s.data.any Char.isLower

/-- `/[0-9]/` check of the password schema. -/
def hasDigitChar (s : String) : Bool := s.data.any Char.isDigit

/-- The `body` of a registration request (RegisterInput). -/
structure RegisterBody where
  email : String
  password : String
  firstName : Option String
  lastName : Option String
deriving DecidableEq

/-- Issues of `email: z.string().email("Invalid email address")` at path
`body.email`. -/
def registerEmailIssues (email : String) : List ZodIssue :=
  if zodEmailFormat email then []
  else [⟨["body", "email"], "Invalid email address"⟩]

/-- Issues of the chained password schema at path `body.password`, in
chain order: min(8), uppercase regex, lowercase regex, digit regex. -/
def registerPasswordIssues (pw : String) : List ZodIssue :=
  (if 8 ≤ pw.data.length then []
   else [⟨["body", "password"], "Password must be at least 8 characters"⟩]) ++
  (if hasUppercase pw then []
   else [⟨["body", "password"], "Password must contain at least one uppercase letter"⟩]) ++
  (if hasLowercase pw then []
   else [⟨["body", "password"], "Password must contain at least one lowercase letter"⟩]) ++
  (if hasDigitChar pw then []
   else [⟨["body", "password"], "Password must contain at least one number"⟩])

/-- Issues of `firstName: z.string().min(1, "First name is required").optional()`. -/
def registerFirstNameIssues : Option String → List ZodIssue
  | none => []
  | some s =>
    if 1 ≤ s.data.length then []
    else [⟨["body", "firstName"], "First name is required"⟩]

/-- All issues of `RegisterSchema.parseAsync({body, query, params})`:
shape keys in declaration order (email, password, firstName, lastName;
lastName has no checks), `query`/`params` unconstrained. -/
def registerSchemaIssues (b : RegisterBody) : List ZodIssue :=
  registerEmailIssues b.email ++ registerPasswordIssues b.password ++
    registerFirstNameIssues b.firstName

/-- Outcome of the `validate(schema)` middleware: `pass` calls `next()`
unchanged, `fail` forwards an error to the error handler. -/
inductive ValidateResult where
  | pass
  | fail (e : Thrown)
deriving DecidableEq

/-- `validate(RegisterSchema)` (validate.ts): on schema violations the
`ZodError` itself is forwarded via `next(error)`; on success `next()`. -/
def validateRegister (b : RegisterBody) : ValidateResult :=
  let issues := registerSchemaIssues b
  if issues.isEmpty then ValidateResult.pass
  else ValidateResult.fail (Thrown.zod issues)

/-! ## Auth service (auth.service.ts) -/

/-- The `select` clause of `prisma.user.create` in `register`. -/
def registerSelect : List String := ["id", "email", "firstName", "lastName"]

/-- The `select` clause of `prisma.user.findUnique` in `getProfile`. -/
def profileSelect : List String :=
  ["id", "email", "firstName", "lastName", "phone", "createdAt"]

/-- `AuthResponse` (auth.types.ts): sanitized user object plus token. -/
structure AuthResponse where
  user : List (String × JsonValue)
  token : TokenStr
deriving DecidableEq

/-- `prisma.user.create`: the store's unique constraint on `email` is the
true guard — creating a record whose email already exists raises
`PrismaClientKnownRequestError` with code `P2002` and `meta.target`
naming the email field. -/
def prismaUserCreate (store : List User) (u : User) :
    Except Thrown (List User) :=
  if store.any (fun v => v.email == u.email) then
    Except.error (Thrown.prisma "P2002" "email")
  else Except.ok (store ++ [u])

/-- `AuthService.generateToken(userId, email)`:
`jwt.sign({userId, email}, config.jwt.secret, {expiresIn: config.jwt.expiresIn})`. -/
def generateToken (userId email : String) (secret : String)
    (expiresInSecs : Nat) (now : Nat) : TokenStr :=
  jwtSign userId email secret expiresInSecs now

/-- `AuthService.register(data)`: pre-check the email via
`findUnique({where: {email}})` and throw `ConflictError` if taken; hash the
password with cost 12; create the user (store-arbitrated uniqueness),
selecting `id, email, firstName, lastName`; issue a token; return the
sanitized user and the token together with the updated store.
`newId`/`now` stand for the id and timestamp the store assigns. -/
def register (store : List User) (data : RegisterBody) (newId : String)
    (now : Nat) (secret : String) (expiresInSecs : Nat) :
    Except Thrown (AuthResponse × List User) :=
  match findUserByEmail store data.email with
  | some _ => Except.error (Thrown.app (ConflictError "User with this email already exists"))
  | none =>
    let hashedPassword := bcryptHash data.password 12
    let newUser : User :=
      { id := newId, email := data.email, password := hashedPassword,
        firstName := data.firstName, lastName := data.lastName,
        phone := none, createdAt := now }
    match prismaUserCreate store newUser with
    | Except.error e => Except.error e
    | Except.ok newStore =>
      let user := selectUser newUser registerSelect
      let token := generateToken newUser.id newUser.email secret expiresInSecs now
      Except.ok (⟨user, token⟩, newStore)

/-- The `body` of a login request (LoginInput). -/
structure LoginBody where
  email : String
  password : String
deriving DecidableEq

/-- `AuthService.login(data)`: look the user up by email — absent email and
failed `bcrypt.compare` both throw `UnauthorizedError("Invalid credentials")`;
on success build the `{id, email, firstName, lastName}` user literal and
issue a token. -/
def login (store : List User) (data : LoginBody) (now : Nat)
    (secret : String) (expiresInSecs : Nat) : Except Thrown AuthResponse :=
  match findUserByEmail store data.email with
  | none => Except.error (Thrown.app (UnauthorizedError "Invalid credentials"))
  | some user =>
    if bcryptCompare data.password user.password then
      Except.ok
        ⟨[("id", JsonValue.str user.id), ("email", JsonValue.str user.email),
          ("firstName", jsonOfOptStr user.firstName),
          ("lastName", jsonOfOptStr user.lastName)],
         generateToken user.id user.email secret expiresInSecs now⟩
    else Except.error (Thrown.app (UnauthorizedError "Invalid credentials"))

/-- `AuthService.getProfile(userId)`: look the user up by id with the wide
select (`id, email, firstName, lastName, phone, createdAt`); absent id
throws `UnauthorizedError("User not found")`. -/
def getProfile (store : List User) (userId : String) :
    Except Thrown (List (String × JsonValue)) :=
  match findUserById store userId with
  | none => Except.error (Thrown.app (UnauthorizedError "User not found"))
  | some u => Except.ok (selectUser u profileSelect)

/-! ## Identity middleware (auth.ts) -/

/-- The identity attached to the request (`req.user`). -/
structure ReqUser where
  id : String
  email : String
deriving DecidableEq

/-- The `Authorization` header as the middleware discriminates it:
absent (`!authHeader`), present with a value that starts with `"Bearer "`
(whose remainder after `substring(7)` is the token), or present with any
other value (`!authHeader.startsWith("Bearer ")`). -/
inductive AuthHeader where
  | missing
  | bearer (tok : TokenStr)
  | nonBearer (s : String)
deriving DecidableEq

/-- The outcome of the mandatory middleware: either `next()` with an
identity attached to the request, or `next(error)`. -/
inductive MwResult where
  | ok (user : ReqUser)
  | err (e : Thrown)
deriving DecidableEq

/-- The `try` block of `authenticate`: reject a missing or non-Bearer
header with `UnauthorizedError("No token provided")`; verify the token
(jsonwebtoken failures propagate as thrown errors); look the user up by
the decoded `userId` (select id, email), rejecting with
`UnauthorizedError("User not found")`; else attach `{id, email}`. -/
def authenticateTry (header : AuthHeader) (store : List User)
    (secret : String) (now : Nat) : Except Thrown ReqUser :=
  match header with
  | AuthHeader.missing =>
    Except.error (Thrown.app (UnauthorizedError "No token provided"))
  | AuthHeader.nonBearer _ =>
    Except.error (Thrown.app (UnauthorizedError "No token provided"))
  | AuthHeader.bearer tok =>
    match jwtVerify tok secret now with
    | Except.error e => Except.error (Thrown.jwt e)
    | Except.ok decoded =>
      match findUserById store decoded.userId with
      | none => Except.error (Thrown.app (UnauthorizedError "User not found"))
      | some user => Except.ok ⟨user.id, user.email⟩

/-- The `catch` block of `authenticate`: `instanceof jwt.JsonWebTokenError`
first (which a `TokenExpiredError` also satisfies, being a subclass), then
`instanceof jwt.TokenExpiredError`, else forward the error unchanged. -/
def authenticateCatch (e : Thrown) : Thrown :=
  if e.isJsonWebTokenError then Thrown.app (UnauthorizedError "Invalid token")
  else if e.isTokenExpiredError then Thrown.app (UnauthorizedError "Token expired")
  else e

/-- `authenticate` (auth.ts): the try block, with every thrown error routed
through the catch block to `next(...)`. -/
def authenticate (header : AuthHeader) (store : List User)
    (secret : String) (now : Nat) : MwResult :=
  match authenticateTry header store secret now with
  | Except.ok user => MwResult.ok user
  | Except.error e => MwResult.err (authenticateCatch e)

/-- The `try` block of `optionalAuth`: only a Bearer header is examined;
verification failures propagate; an unknown `userId` simply leaves the
request identity unset (no throw); `next()` is reached with the identity
attached or not. -/
def optionalAuthTry (header : AuthHeader) (store : List User)
    (secret : String) (now : Nat) : Except Thrown (Option ReqUser) :=
  match header with
  | AuthHeader.bearer tok =>
    (match jwtVerify tok secret now with
     | Except.error e => Except.error (Thrown.jwt e)
     | Except.ok decoded =>
       match findUserById store decoded.userId with
       | none => Except.ok none
       | some user => Except.ok (some ⟨user.id, user.email⟩))
  | _ => Except.ok none

/-- `optionalAuth` (auth.ts): any error of the try block is swallowed and
`next()` is called with no identity attached; the request always proceeds. -/
def optionalAuth (header : AuthHeader) (store : List User)
    (secret : String) (now : Nat) : Option ReqUser :=
  match optionalAuthTry header store secret now with
  | Except.ok u => u
  | Except.error _ => none

/-- Decidable equality of `Except` results (used to evaluate the embedded
operations at concrete inputs). -/
instance {ε α : Type} [DecidableEq ε] [DecidableEq α] :
    DecidableEq (Except ε α) := fun a b =>
  match a, b with
  | Except.error x, Except.error y =>
    if h : x = y then Decidable.isTrue (by rw [h])
    else Decidable.isFalse (by simp [h])
  | Except.error _, Except.ok _ => Decidable.isFalse (by simp)
  | Except.ok _, Except.error _ => Decidable.isFalse (by simp)
  | Except.ok x, Except.ok y =>
    if h : x = y then Decidable.isTrue (by rw [h])
    else Decidable.isFalse (by simp [h])

/-! ## Helper lemmas -/

/-- The keys of the register projection are exactly the register select. -/
lemma selectUser_registerSelect_keys (u : User) :
    (selectUser u registerSelect).map Prod.fst = registerSelect := rfl

/-- The keys of the profile projection are exactly the profile select. -/
lemma selectUser_profileSelect_keys (u : User) :
    (selectUser u profileSelect).map Prod.fst = profileSelect := rfl

/-- A successful `register` returns the select projection of the freshly
created user and a token signed over its id and email. -/
lemma register_ok_shape (store : List User) (data : RegisterBody)
    (newId : String) (now : Nat) (secret : String) (expSecs : Nat)
    (resp : AuthResponse) (newStore : List User)
    (h : register store data newId now secret expSecs = Except.ok (resp, newStore)) :
    resp = ⟨selectUser { id := newId, email := data.email,
                         password := bcryptHash data.password 12,
                         firstName := data.firstName, lastName := data.lastName,
                         phone := none, createdAt := now } registerSelect,
            TokenStr.signed ⟨newId, data.email, now, now + expSecs, secret⟩⟩ := by
  unfold register prismaUserCreate at h
  split at h
  · exact absurd h (by simp)
  · dsimp only at h
    split at h
    · exact absurd h (by simp)
    · simp [generateToken, jwtSign] at h
      exact h.1.symm

/-- A successful `login` returns the inline four-field user literal of the
record found by email and a token signed over its id and email. -/
lemma login_ok_shape (store : List User) (data : LoginBody) (now : Nat)
    (secret : String) (expSecs : Nat) (resp : AuthResponse)
    (h : login store data now secret expSecs = Except.ok resp) :
    ∃ u : User, findUserByEmail store data.email = some u ∧
      bcryptCompare data.password u.password = true ∧
      resp = ⟨[("id", JsonValue.str u.id), ("email", JsonValue.str u.email),
               ("firstName", jsonOfOptStr u.firstName),
               ("lastName", jsonOfOptStr u.lastName)],
              TokenStr.signed ⟨u.id, u.email, now, now + expSecs, secret⟩⟩ := by
  unfold login at h
  split at h
  · exact absurd h (by simp)
  · next u heq =>
    split at h
    · next hc =>
      refine ⟨u, heq, hc, ?_⟩
      simp [generateToken, jwtSign] at h
      exact h.symm
    · exact absurd h (by simp)

/-- A successful `getProfile` returns the wide select projection of the
record found by id. -/
lemma getProfile_ok_shape (store : List User) (uid : String)
    (p : List (String × JsonValue)) (h : getProfile store uid = Except.ok p) :
    ∃ u : User, findUserById store uid = some u ∧ p = selectUser u profileSelect := by
  unfold getProfile at h
  split at h
  · exact absurd h (by simp)
  · next u heq =>
    simp at h
    exact ⟨u, heq, h.symm⟩

/-- `optionalAuth` agrees with `authenticate`: it attaches exactly the
identity the mandatory variant would, and proceeds bare whenever the
mandatory variant would fail. -/
lemma optionalAuth_agrees (store : List User) (secret : String) (now : Nat)
    (header : AuthHeader) :
    optionalAuth header store secret now =
      match authenticate header store secret now with
      | MwResult.ok u => some u
      | MwResult.err _ => none := by
  cases header with
  | missing => rfl
  | nonBearer s => rfl
  | bearer tok =>
    unfold optionalAuth optionalAuthTry authenticate authenticateTry
    dsimp only
    cases hv : jwtVerify tok secret now with
    | error e => rfl
    | ok p =>
      dsimp only
      cases hf : findUserById store p.userId with
      | none => rfl
      | some w => rfl

/-! ## Claim theorems -/

/-- C1: The claim asserts that a Bearer token with a valid signature whose
expiry has passed is rejected by `authenticate` as a 401 with message
"Token expired", distinguishable from "Invalid token".  The code does the
opposite: because `TokenExpiredError` is a subclass of `JsonWebTokenError`,
the catch block's first `instanceof jwt.JsonWebTokenError` check also
captures expired tokens, so the `"Token expired"` branch is unreachable
and the middleware surfaces the expired kind as 401 "Invalid token".  This
theorem evaluates the code at the failing input: a token signed with the
server secret, expired at verification time (`jwtVerify` itself reports
the expired kind), for a user that exists in the store. -/
theorem authenticate_expired_token_yields_invalid_message :
    jwtVerify (TokenStr.signed ⟨"u1", "a@b.com", 0, 100, "secret"⟩) "secret" 200 =
      Except.error JwtError.expired ∧
    authenticate (AuthHeader.bearer (TokenStr.signed ⟨"u1", "a@b.com", 0, 100, "secret"⟩))
        [⟨"u1", "a@b.com", "h", none, none, none, 0⟩] "secret" 200 =
      MwResult.err (Thrown.app (UnauthorizedError "Invalid token")) ∧
    errorHandler (Thrown.app (UnauthorizedError "Invalid token")) false =
      ⟨401, "Invalid token", none, false⟩ := by
  decide

/-- C2: A login whose email resolves to no user and a login whose email
resolves to a user but whose hash comparison fails produce literally the
same failure: `UnauthorizedError` with status 401 and message
"Invalid credentials" — the two cases are observationally identical. -/
theorem login_failures_indistinguishable
    (store1 store2 : List User) (d1 d2 : LoginBody) (u : User)
    (now1 now2 : Nat) (secret1 secret2 : String) (exp1 exp2 : Nat)
    (hNoUser : findUserByEmail store1 d1.email = none)
    (hUser : findUserByEmail store2 d2.email = some u)
    (hBadPw : bcryptCompare d2.password u.password = false) :
    login store1 d1 now1 secret1 exp1 =
      Except.error (Thrown.app (UnauthorizedError "Invalid credentials")) ∧
    login store2 d2 now2 secret2 exp2 =
      Except.error (Thrown.app (UnauthorizedError "Invalid credentials")) ∧
    login store1 d1 now1 secret1 exp1 = login store2 d2 now2 secret2 exp2 := by
  refine ⟨?_, ?_, ?_⟩ <;> simp [login, hNoUser, hUser, hBadPw]

/-- Witness for C2 at a concrete store and credentials. -/
theorem login_failures_indistinguishable_witness :
    findUserByEmail [] "a@b.com" = none ∧
    findUserByEmail [⟨"u1", "c@d.com", bcryptHash "Right123" 12, none, none, none, 0⟩]
        "c@d.com" =
      some ⟨"u1", "c@d.com", bcryptHash "Right123" 12, none, none, none, 0⟩ ∧
    bcryptCompare "Wrong123" (bcryptHash "Right123" 12) = false ∧
    login [] ⟨"a@b.com", "pw"⟩ 0 "s" 1 =
      login [⟨"u1", "c@d.com", bcryptHash "Right123" 12, none, none, none, 0⟩]
        ⟨"c@d.com", "Wrong123"⟩ 0 "s" 1 :=
  ⟨by decide, by decide, by decide,
   (login_failures_indistinguishable
      [] [⟨"u1", "c@d.com", bcryptHash "Right123" 12, none, none, none, 0⟩]
      ⟨"a@b.com", "pw"⟩ ⟨"c@d.com", "Wrong123"⟩
      ⟨"u1", "c@d.com", bcryptHash "Right123" 12, none, none, none, 0⟩
      0 0 "s" "s" 1 1 (by decide) (by decide) (by decide)).2.2⟩

/-- C3: A successful `register` with a previously-unused email returns a
token whose embedded email and userId match the created user and a
sanitized user object with no password field; successful `login` and
`getProfile` responses likewise contain no password field. -/
theorem auth_responses_sanitized
    (store : List User) (data : RegisterBody) (newId : String) (now : Nat)
    (secret : String) (expSecs : Nat) (resp : AuthResponse) (newStore : List User)
    (h : register store data newId now secret expSecs = Except.ok (resp, newStore)) :
    (∃ t : SignedToken, resp.token = TokenStr.signed t ∧
       t.email = data.email ∧ t.userId = newId) ∧
    "password" ∉ resp.user.map Prod.fst ∧
    (∀ (store2 : List User) (d2 : LoginBody) (now2 : Nat) (s2 : String)
       (e2 : Nat) (resp2 : AuthResponse),
       login store2 d2 now2 s2 e2 = Except.ok resp2 →
       "password" ∉ resp2.user.map Prod.fst) ∧
    (∀ (store3 : List User) (uid : String) (p : List (String × JsonValue)),
       getProfile store3 uid = Except.ok p → "password" ∉ p.map Prod.fst) := by
  have hshape := register_ok_shape store data newId now secret expSecs resp newStore h
  subst hshape
  refine ⟨⟨_, rfl, rfl, rfl⟩, ?_, ?_, ?_⟩
  · rw [show (AuthResponse.user ⟨selectUser _ registerSelect, _⟩) =
        selectUser _ registerSelect from rfl, selectUser_registerSelect_keys]
    decide
  · intro store2 d2 now2 s2 e2 resp2 h2
    obtain ⟨u, _, _, rfl⟩ := login_ok_shape store2 d2 now2 s2 e2 resp2 h2
    simp
  · intro store3 uid p h3
    obtain ⟨u, _, rfl⟩ := getProfile_ok_shape store3 uid p h3
    rw [selectUser_profileSelect_keys]
    decide

/-- Witness for C3 at a concrete registration. -/
theorem auth_responses_sanitized_witness :
    register [] ⟨"a@b.com", "Test1234", none, none⟩ "u1" 0 "s" 1 =
      Except.ok
        (⟨[("id", JsonValue.str "u1"), ("email", JsonValue.str "a@b.com"),
           ("firstName", JsonValue.nullv), ("lastName", JsonValue.nullv)],
          TokenStr.signed ⟨"u1", "a@b.com", 0, 1, "s"⟩⟩,
         [⟨"u1", "a@b.com", bcryptHash "Test1234" 12, none, none, none, 0⟩]) ∧
    "password" ∉ (([("id", JsonValue.str "u1"), ("email", JsonValue.str "a@b.com"),
                    ("firstName", JsonValue.nullv), ("lastName", JsonValue.nullv)] :
                   List (String × JsonValue)).map Prod.fst) :=
  ⟨by decide,
   (auth_responses_sanitized [] ⟨"a@b.com", "Test1234", none, none⟩ "u1" 0 "s" 1
      ⟨[("id", JsonValue.str "u1"), ("email", JsonValue.str "a@b.com"),
        ("firstName", JsonValue.nullv), ("lastName", JsonValue.nullv)],
       TokenStr.signed ⟨"u1", "a@b.com", 0, 1, "s"⟩⟩
      [⟨"u1", "a@b.com", bcryptHash "Test1234" 12, none, none, none, 0⟩]
      (by decide)).2.1⟩

/-- C4: Round-trip law of the token codec: verifying a token immediately
after issuance, with the same server secret and a positive configured
expiry duration, succeeds with the issued userId and email. -/
theorem token_round_trip (u e secret : String) (now expSecs : Nat)
    (h : 0 < expSecs) :
    jwtVerify (generateToken u e secret expSecs now) secret now =
      Except.ok ⟨u, e⟩ := by
  simp [generateToken, jwtSign, jwtVerify]
  omega

/-- Witness for C4 with the default 7-day expiry. -/
theorem token_round_trip_witness :
    0 < defaultExpiresInSecs ∧
    jwtVerify (generateToken "u1" "a@b.com" "s" defaultExpiresInSecs 1000) "s" 1000 =
      Except.ok ⟨"u1", "a@b.com"⟩ :=
  ⟨by decide, token_round_trip "u1" "a@b.com" "s" 1000 defaultExpiresInSecs (by decide)⟩

/-- C5: Registration with an email that already belongs to a stored user
fails with the 409 `ConflictError`, whatever the password; and a store
duplicate-key error (`P2002`, the uniqueness constraint catching the
pre-check race) is translated by the error handler to the duplicate-field
conflict outcome (status 400, "Duplicate field value: <field>"). -/
theorem duplicate_registration_conflict
    (store : List User) (data : RegisterBody) (newId : String) (now : Nat)
    (secret : String) (expSecs : Nat) (u : User)
    (h : findUserByEmail store data.email = some u) :
    register store data newId now secret expSecs =
      Except.error (Thrown.app (ConflictError "User with this email already exists")) ∧
    (ConflictError "User with this email already exists").statusCode = 409 ∧
    (∀ (target : String) (dev : Bool),
       errorHandler (Thrown.prisma "P2002" target) dev =
         ⟨400, "Duplicate field value: " ++ target, none, dev⟩) := by
  refine ⟨?_, rfl, fun target dev => rfl⟩
  simp [register, h]

/-- Witness for C5 at a concrete store with the email already taken. -/
theorem duplicate_registration_conflict_witness :
    findUserByEmail [⟨"u1", "c@d.com", "h", none, none, none, 0⟩] "c@d.com" =
      some ⟨"u1", "c@d.com", "h", none, none, none, 0⟩ ∧
    register [⟨"u1", "c@d.com", "h", none, none, none, 0⟩]
        ⟨"c@d.com", "Whatever1", none, none⟩ "u2" 0 "s" 1 =
      Except.error (Thrown.app (ConflictError "User with this email already exists")) :=
  ⟨by decide,
   (duplicate_registration_conflict [⟨"u1", "c@d.com", "h", none, none, none, 0⟩]
      ⟨"c@d.com", "Whatever1", none, none⟩ "u2" 0 "s" 1
      ⟨"u1", "c@d.com", "h", none, none, none, 0⟩ (by decide)).1⟩

/-- C6: The mandatory identity middleware rejects an absent Authorization
header with exactly "No token provided", treats any present non-Bearer or
malformed header identically to an absent one, rejects a malformed token
as "Invalid token", rejects a verifiable token whose userId resolves to no
stored user as "User not found" — and every such failure is an
`UnauthorizedError`, translated to status 401. -/
theorem authenticate_rejects_unauthorized
    (store : List User) (secret : String) (now : Nat) :
    authenticate AuthHeader.missing store secret now =
      MwResult.err (Thrown.app (UnauthorizedError "No token provided")) ∧
    (∀ s : String, authenticate (AuthHeader.nonBearer s) store secret now =
       authenticate AuthHeader.missing store secret now) ∧
    (∀ s : String,
       authenticate (AuthHeader.bearer (TokenStr.malformed s)) store secret now =
         MwResult.err (Thrown.app (UnauthorizedError "Invalid token"))) ∧
    (∀ t : SignedToken,
       jwtVerify (TokenStr.signed t) secret now = Except.ok ⟨t.userId, t.email⟩ →
       findUserById store t.userId = none →
       authenticate (AuthHeader.bearer (TokenStr.signed t)) store secret now =
         MwResult.err (Thrown.app (UnauthorizedError "User not found"))) ∧
    (∀ (msg : String) (dev : Bool),
       (errorHandler (Thrown.app (UnauthorizedError msg)) dev).statusCode = 401) := by
  refine ⟨rfl, fun s => rfl, fun s => rfl, ?_, fun msg dev => rfl⟩
  intro t hv hf
  unfold authenticate authenticateTry
  dsimp only
  rw [hv]
  dsimp only
  rw [hf]
  rfl

/-- Witness for C6: a verifiable token for a user missing from the store. -/
theorem authenticate_rejects_unauthorized_witness :
    jwtVerify (TokenStr.signed ⟨"u1", "a@b.com", 0, 100, "s"⟩) "s" 5 =
      Except.ok ⟨"u1", "a@b.com"⟩ ∧
    findUserById [] "u1" = none ∧
    authenticate (AuthHeader.bearer (TokenStr.signed ⟨"u1", "a@b.com", 0, 100, "s"⟩))
        [] "s" 5 =
      MwResult.err (Thrown.app (UnauthorizedError "User not found")) :=
  ⟨by decide, by decide,
   (authenticate_rejects_unauthorized [] "s" 5).2.2.2.1
     ⟨"u1", "a@b.com", 0, 100, "s"⟩ (by decide) (by decide)⟩

/-- C7: The optional identity middleware never propagates a failure: for a
missing header, a non-Bearer header, a malformed token, any token-codec
failure (invalid or expired), and a verifiable token for an absent user
the request proceeds with no identity attached; every error of its body is
swallowed; and it attaches an identity exactly when the mandatory variant
would attach that same identity. -/
theorem optionalAuth_never_blocks
    (store : List User) (secret : String) (now : Nat) :
    optionalAuth AuthHeader.missing store secret now = none ∧
    (∀ s : String, optionalAuth (AuthHeader.nonBearer s) store secret now = none) ∧
    (∀ s : String,
       optionalAuth (AuthHeader.bearer (TokenStr.malformed s)) store secret now = none) ∧
    (∀ (t : SignedToken) (e : JwtError),
       jwtVerify (TokenStr.signed t) secret now = Except.error e →
       optionalAuth (AuthHeader.bearer (TokenStr.signed t)) store secret now = none) ∧
    (∀ t : SignedToken,
       jwtVerify (TokenStr.signed t) secret now = Except.ok ⟨t.userId, t.email⟩ →
       findUserById store t.userId = none →
       optionalAuth (AuthHeader.bearer (TokenStr.signed t)) store secret now = none) ∧
    (∀ (header : AuthHeader) (e : Thrown),
       optionalAuthTry header store secret now = Except.error e →
       optionalAuth header store secret now = none) ∧
    (∀ (header : AuthHeader) (u : ReqUser),
       optionalAuth header store secret now = some u ↔
         authenticate header store secret now = MwResult.ok u) := by
  refine ⟨rfl, fun s => rfl, fun s => rfl, ?_, ?_, ?_, ?_⟩
  · intro t e hv
    unfold optionalAuth optionalAuthTry
    dsimp only
    rw [hv]
  · intro t hv hf
    unfold optionalAuth optionalAuthTry
    dsimp only
    rw [hv]
    dsimp only
    rw [hf]
  · intro header e htry
    unfold optionalAuth
    rw [htry]
  · intro header u
    rw [optionalAuth_agrees store secret now header]
    cases hres : authenticate header store secret now with
    | ok v => simp
    | err e => simp

/-- Witness for C7: an expired token is swallowed. -/
theorem optionalAuth_never_blocks_witness :
    jwtVerify (TokenStr.signed ⟨"u1", "a@b.com", 0, 100, "s"⟩) "s" 200 =
      Except.error JwtError.expired ∧
    optionalAuth (AuthHeader.bearer (TokenStr.signed ⟨"u1", "a@b.com", 0, 100, "s"⟩))
      [] "s" 200 = none :=
  ⟨by decide,
   (optionalAuth_never_blocks [] "s" 200).2.2.2.1
     ⟨"u1", "a@b.com", 0, 100, "s"⟩ JwtError.expired (by decide)⟩

/-- C8: Every payload violating the register schema makes the validation
gate forward a structured `ZodError` (its own error kind), which the error
handler maps to status 422, message "Validation failed", and an `errors`
array of dotted-path `{field, message}` entries in discovery order; on
`{email: "not-an-email", password: "short"}` this yields entries for both
`body.email` and `body.password`, each with non-empty field and message. -/
theorem validation_gate_structured_errors :
    (∀ (b : RegisterBody) (dev : Bool), registerSchemaIssues b ≠ [] →
       validateRegister b = ValidateResult.fail (Thrown.zod (registerSchemaIssues b)) ∧
       errorHandler (Thrown.zod (registerSchemaIssues b)) dev =
         ⟨422, "Validation failed",
          some ((registerSchemaIssues b).map
            (fun i => ⟨String.intercalate "." i.path, i.message⟩)), dev⟩) ∧
    errorHandler
        (Thrown.zod (registerSchemaIssues ⟨"not-an-email", "short", none, none⟩)) false =
      ⟨422, "Validation failed",
       some [⟨"body.email", "Invalid email address"⟩,
             ⟨"body.password", "Password must be at least 8 characters"⟩,
             ⟨"body.password", "Password must contain at least one uppercase letter"⟩,
             ⟨"body.password", "Password must contain at least one number"⟩], false⟩ ∧
    (∃ fe ∈ ((errorHandler
        (Thrown.zod (registerSchemaIssues ⟨"not-an-email", "short", none, none⟩))
        false).errors.getD []),
       fe.field = "body.email" ∧ fe.field ≠ "" ∧ fe.message ≠ "") ∧
    (∃ fe ∈ ((errorHandler
        (Thrown.zod (registerSchemaIssues ⟨"not-an-email", "short", none, none⟩))
        false).errors.getD []),
       fe.field = "body.password" ∧ fe.field ≠ "" ∧ fe.message ≠ "") := by
  refine ⟨?_, by decide, by decide, by decide⟩
  intro b dev hne
  have hemp : (registerSchemaIssues b).isEmpty = false := by
    cases hq : registerSchemaIssues b with
    | nil => exact absurd hq hne
    | cons x xs => rfl
  refine ⟨?_, rfl⟩
  unfold validateRegister
  dsimp only
  rw [hemp]
  rfl

/-- Witness for C8 at the claim's concrete payload. -/
theorem validation_gate_structured_errors_witness :
    registerSchemaIssues ⟨"not-an-email", "short", none, none⟩ ≠ [] ∧
    validateRegister ⟨"not-an-email", "short", none, none⟩ =
      ValidateResult.fail
        (Thrown.zod (registerSchemaIssues ⟨"not-an-email", "short", none, none⟩)) :=
  ⟨by decide,
   (validation_gate_structured_errors.1 ⟨"not-an-email", "short", none, none⟩ false
      (by decide)).1⟩

/-- C9 counterexample: the claim says that outside development mode the
original message of an unclassified error is suppressed; but the error
handler sets `message = err.message || "Internal server error"` regardless
of mode (only the stack trace is development-gated), so a concrete
unclassified error's message is revealed with `devMode = false`. -/
theorem unknown_error_message_revealed :
    (errorHandler (Thrown.other "Error" "sensitive detail") false).statusCode = 500 ∧
    (errorHandler (Thrown.other "Error" "sensitive detail") false).message =
      "sensitive detail" ∧
    ("sensitive detail" : String) ≠ "Internal server error" := by
  decide

/-- C9 (amended): every error not classified as a domain, store,
validation, or token error is translated to status 500 with the original
error message when non-empty (else "Internal server error") in every
mode; only the stack trace is restricted to development mode. -/
theorem unknown_error_translation (errname msg : String) (dev : Bool)
    (h1 : errname ≠ "JsonWebTokenError") (h2 : errname ≠ "TokenExpiredError") :
    errorHandler (Thrown.other errname msg) dev =
      ⟨500, if msg = "" then "Internal server error" else msg, none, dev⟩ := by
  simp [errorHandler, Thrown.errName, Thrown.errMessage, h1, h2]

/-- Witness for C9's amended theorem. -/
theorem unknown_error_translation_witness :
    ("Error" : String) ≠ "JsonWebTokenError" ∧
    ("Error" : String) ≠ "TokenExpiredError" ∧
    errorHandler (Thrown.other "Error" "boom") true =
      ⟨500, if ("boom" : String) = "" then "Internal server error" else "boom",
       none, true⟩ :=
  ⟨by decide, by decide,
   unknown_error_translation "Error" "boom" true (by decide) (by decide)⟩

/-- C10: Successful `register` and `login` responses carry a user object
with exactly the fields id, email, firstName, lastName (phone and
createdAt omitted), while `getProfile` returns the wider projection that
additionally includes phone and createdAt. -/
theorem response_field_projections :
    (∀ (store : List User) (data : RegisterBody) (newId : String) (now : Nat)
       (secret : String) (expSecs : Nat) (resp : AuthResponse) (newStore : List User),
       register store data newId now secret expSecs = Except.ok (resp, newStore) →
       resp.user.map Prod.fst = ["id", "email", "firstName", "lastName"]) ∧
    (∀ (store : List User) (data : LoginBody) (now : Nat) (secret : String)
       (expSecs : Nat) (resp : AuthResponse),
       login store data now secret expSecs = Except.ok resp →
       resp.user.map Prod.fst = ["id", "email", "firstName", "lastName"]) ∧
    (∀ (store : List User) (uid : String) (p : List (String × JsonValue)),
       getProfile store uid = Except.ok p →
       p.map Prod.fst = ["id", "email", "firstName", "lastName", "phone", "createdAt"]) := by
  refine ⟨?_, ?_, ?_⟩
  · intro store data newId now secret expSecs resp newStore h
    obtain rfl := register_ok_shape store data newId now secret expSecs resp newStore h
    exact selectUser_registerSelect_keys _
  · intro store data now secret expSecs resp h
    obtain ⟨u, h1, h2, rfl⟩ := login_ok_shape store data now secret expSecs resp h
    rfl
  · intro store uid p h
    obtain ⟨u, h1, rfl⟩ := getProfile_ok_shape store uid p h
    exact selectUser_profileSelect_keys _

/-- Witness for C10: a concrete profile lookup returning the wide
projection. -/
theorem response_field_projections_witness :
    getProfile [⟨"u1", "a@b.com", "h", some "A", some "B", some "123", 42⟩] "u1" =
      Except.ok [("id", JsonValue.str "u1"), ("email", JsonValue.str "a@b.com"),
                 ("firstName", JsonValue.str "A"), ("lastName", JsonValue.str "B"),
                 ("phone", JsonValue.str "123"), ("createdAt", JsonValue.num 42)] ∧
    ([("id", JsonValue.str "u1"), ("email", JsonValue.str "a@b.com"),
      ("firstName", JsonValue.str "A"), ("lastName", JsonValue.str "B"),
      ("phone", JsonValue.str "123"), ("createdAt", JsonValue.num 42)] :
        List (String × JsonValue)).map Prod.fst =
      ["id", "email", "firstName", "lastName", "phone", "createdAt"] :=
  ⟨by decide,
   response_field_projections.2.2
     [⟨"u1", "a@b.com", "h", some "A", some "B", some "123", 42⟩] "u1"
     [("id", JsonValue.str "u1"), ("email", JsonValue.str "a@b.com"),
      ("firstName", JsonValue.str "A"), ("lastName", JsonValue.str "B"),
      ("phone", JsonValue.str "123"), ("createdAt", JsonValue.num 42)]
     (by decide)⟩

end JobTracker
